import Mathlib

/-!
Shallow embedding of `src/templates/process_manager.py` (class
`MCPProcessManager`), the subprocess supervisor of the mcp-to-skill
repository, together with theorems settling the specification claims.

Modelling conventions:
* Durable files (`.mcp.pid`, `.mcp.last_active`) are cells holding either
  text that parses as the expected numeric type (`Cell.num a`) or text that
  fails to parse (`Cell.malformed`); `none` means the file is absent.
  Timestamps are integers, standing in for Python float epoch seconds (the supervisor only subtracts and compares them); process
  identifiers are integers.
* Fallible operating-system primitives (file reads, file writes, unlink,
  the `os.kill(pid, 0)` probe) take their outcomes from injected oracle
  fields of `World`, so every theorem quantifies over all I/O outcomes.
* Python exceptions are modelled with `Except PyErr` / `Res`; a `try`
  block is a `match` on the body, and a bare `except: pass` maps the
  error case back to the state at the raise point.
* Signals actually issued to the operating system are recorded in an
  event log.
-/

/-- Content of a durable text cell: either text that parses as the expected
numeric type `α`, or text on which the parse (`int()` or `float()`) raises. -/
inductive Cell (α : Type) where
  | num (a : α)
  | malformed
deriving DecidableEq, Repr

/-- Python exception classes relevant to the supervisor. -/
inductive PyErr where
  | nameError
  | osError
  | ioError
  | valueError
  | timeoutExpired
deriving DecidableEq, Repr

/-- Observable operating-system actions of the supervisor. -/
inductive Event where
  | spawn (pid : Int)
  | sigterm (pid : Int)
  | sigtermHandle (pid : Int)
deriving DecidableEq, Repr

/-- In-memory process handle (`subprocess.Popen` / `multiprocessing.Process`):
the operating-system identifier plus whether the exit status has been
collected (`returncode` is set). -/
structure Proc where
  pid : Int
  reaped : Bool
deriving DecidableEq, Repr

/-- The world outside the manager object: the two durable files under the
skill directory, the clock, the operating-system process table (as the
outcome oracle of `os.kill(pid, 0)`), injected I/O fault outcomes, and a
log of issued signals and spawns. -/
structure World where
  pidFile : Option (Cell Int)
  lastActiveFile : Option (Cell Int)
  now : Int
  osProbeOk : Int → Bool
  diesOnTerm : Int → Bool
  freshPid : Int
  spawnFails : Bool
  readPidFails : Bool
  readLastFails : Bool
  writePidFails : Bool
  writeLastFails : Bool
  unlinkPidFails : Bool
  unlinkLastFails : Bool
  log : List Event

/-- The fields of `MCPProcessManager` (process_manager.py lines 21-38) that
the claims are about: configuration from `keep_alive`, the in-memory worker
handles, the monitor-thread flag and the stop event. -/
structure Manager where
  enabled : Bool
  timeout : Int
  check_interval : Int
  process : Option Proc
  worker_process : Option Proc
  stop_event : Bool
  monitor_started : Bool
deriving DecidableEq, Repr

/-- Result of a method call that may mutate the manager and the world:
normal return with a value, or a propagating Python exception, carrying in
both cases the manager and world state at the point of return or raise. -/
inductive Res (α : Type) where
  | ok (a : α) (m : Manager) (w : World)
  | exn (e : PyErr) (m : Manager) (w : World)

/-- The exception carried by a result, if any. -/
def Res.err {α : Type} : Res α → Option PyErr
  | .ok _ _ _ => none
  | .exn e _ _ => some e

/-- The manager state carried by a result. -/
def Res.mgr {α : Type} : Res α → Manager
  | .ok _ m _ => m
  | .exn _ m _ => m

/-- The world state carried by a result. -/
def Res.world {α : Type} : Res α → World
  | .ok _ _ w => w
  | .exn _ _ w => w

/-- The returned value, if the call returned normally. -/
def Res.val? {α : Type} : Res α → Option α
  | .ok a _ _ => some a
  | .exn _ _ _ => none

/-- The template module imports json, time, signal, threading, pathlib
pieces, typing pieces, multiprocessing pieces and subprocess — but never
`sys`. Evaluating `sys.stderr` (process_manager.py lines 122 and 179)
therefore raises NameError. -/
def sysImported : Bool := false

/-- Body of the `try` in `is_process_alive` (lines 78-88): open and read the
pid file, parse with `int()`, then probe with `os.kill(pid, 0)`; the inner
`try`/`except OSError` turns a failed probe into `False`. -/
def is_process_alive_body (w : World) : Except PyErr Bool :=
  if w.readPidFails then .error .ioError
  else
    match w.pidFile with
    | none => .ok false
    | some .malformed => .error .valueError
    | some (.num pid) => .ok (w.osProbeOk pid)

/-- MCPProcessManager.is_process_alive (lines 73-90): `False` if the pid
file is absent; otherwise run the body, and the bare `except` (line 89)
turns any raise into `False`. -/
def is_process_alive (w : World) : Bool :=
  if w.pidFile.isNone then false
  else
    match is_process_alive_body w with
    | .ok b => b
    | .error _ => false

/-- MCPProcessManager.update_heartbeat (lines 65-71): a no-op when
disabled; otherwise opens the last-active file for writing (a raise here
propagates — there is no `try`) and writes `str(time.time())`. -/
def update_heartbeat (m : Manager) (w : World) : Except PyErr World :=
  if !m.enabled then .ok w
  else if w.writeLastFails then .error .ioError
  else .ok { w with lastActiveFile := some (Cell.num w.now) }

/-- MCPProcessManager._cleanup_files (lines 141-148): for each of the two
files, if it exists, unlink it inside `try`/`except: pass`, so a failed
unlink leaves the file in place and raises nothing. -/
def _cleanup_files (w : World) : World :=
  let w1 :=
    if w.pidFile.isSome && !w.unlinkPidFails then { w with pidFile := none }
    else w
  if w1.lastActiveFile.isSome && !w1.unlinkLastFails then
    { w1 with lastActiveFile := none }
  else w1

/-- MCPProcessManager._terminate_process (lines 127-139): if the pid file
exists, read and parse it and issue `os.kill(pid, SIGTERM)` inside
`try`/`except: pass` (delivery failure to a vanished process is swallowed);
then call `_cleanup_files`. The manager object is not touched. -/
def _terminate_process (w : World) : World :=
  let w1 :=
    match w.pidFile with
    | none => w
    | some .malformed => w
    | some (.num pid) =>
      if w.readPidFails then w
      else { w with log := w.log ++ [Event.sigterm pid] }
  _cleanup_files w1

/-- Body of the `try` in `_check_timeout` (lines 115-123): read and parse
the last-active file with `float()`, compute `idle = now - last_active`,
and on `idle > timeout` evaluate `print(..., file=sys.stderr)` — which
raises NameError because `sys` is unbound — before `_terminate_process`
would be reached. -/
def _check_timeout_body (m : Manager) (w : World) : Except PyErr World :=
  if w.readLastFails then .error .ioError
  else
    match w.lastActiveFile with
    | none => .ok w
    | some .malformed => .error .valueError
    | some (.num last_active) =>
      let idle_time := w.now - last_active
      if idle_time > m.timeout then
        if sysImported then .ok (_terminate_process w)
        else .error .nameError
      else .ok w

/-- MCPProcessManager._check_timeout (lines 110-125): return at once if the
last-active file is absent; otherwise run the body, and the bare
`except: pass` (line 124) discards any raise, leaving the world as it was
at the raise point (no mutation precedes a raise in the body). -/
def _check_timeout (m : Manager) (w : World) : Except PyErr World :=
  if w.lastActiveFile.isNone then .ok w
  else
    match _check_timeout_body m w with
    | .ok w1 => .ok w1
    | .error _ => .ok w

/-- One iteration of the body of MCPProcessManager._monitor_loop
(lines 102-106): check liveness, then either check the idle timeout or
reconcile by deleting both files. -/
def monitor_tick (m : Manager) (w : World) : Except PyErr World :=
  if is_process_alive w then _check_timeout m w
  else .ok (_cleanup_files w)

/-- MCPProcessManager._monitor_loop (lines 100-108) with fuel: while the
stop event is not set, run a tick and then `time.sleep(check_interval)`
(modelled as advancing the clock by the full interval). An exception
escaping a tick would kill the monitor thread, ending the loop. -/
def _monitor_loop : Nat → Manager → World → Except PyErr World
  | 0, _, w => .ok w
  | n + 1, m, w =>
    if m.stop_event then .ok w
    else
      match monitor_tick m w with
      | .ok w1 => _monitor_loop n m { w1 with now := w1.now + m.check_interval }
      | .error e => .error e

/-- MCPProcessManager._start_worker (lines 150-179): return if a worker is
already alive; otherwise `subprocess.Popen` the configured command (a spawn
failure propagates), record the handle in `self.process`, write the pid
file (a write failure propagates — no `try`), reset the heartbeat via
`update_heartbeat`, and finally evaluate `print(..., file=sys.stderr)`
(line 179) — which raises NameError, propagating to the caller, because
`sys` is unbound in the module. -/
def _start_worker (m : Manager) (w : World) : Res Unit :=
  if is_process_alive w then .ok () m w
  else if w.spawnFails then .exn .osError m w
  else
    let pid := w.freshPid
    let m1 := { m with process := some { pid := pid, reaped := false } }
    let w1 := { w with log := w.log ++ [Event.spawn pid] }
    if w1.writePidFails then .exn .ioError m1 w1
    else
      let w2 := { w1 with pidFile := some (Cell.num pid) }
      match update_heartbeat m1 w2 with
      | .error e => .exn e m1 w2
      | .ok w3 =>
        if sysImported then .ok () m1 w3
        else .exn .nameError m1 w3

/-- MCPProcessManager.get_process (lines 181-191): `None` when disabled;
otherwise spawn via `_start_worker` when not alive, or refresh the
heartbeat when alive, and return `self.process`. Exceptions from either
branch propagate to the caller. -/
def get_process (m : Manager) (w : World) : Res (Option Proc) :=
  if !m.enabled then .ok none m w
  else if !is_process_alive w then
    match _start_worker m w with
    | .exn e m1 w1 => .exn e m1 w1
    | .ok _ m1 w1 => .ok m1.process m1 w1
  else
    match update_heartbeat m w with
    | .error e => .exn e m w
    | .ok w1 => .ok m.process m w1

/-- MCPProcessManager.start (lines 40-46): return at once when disabled;
otherwise start the monitor thread and call `_start_worker`. -/
def start (m : Manager) (w : World) : Res Unit :=
  if !m.enabled then .ok () m w
  else _start_worker { m with monitor_started := true } w

/-- Popen.terminate semantics (CPython send_signal): poll first; if the
exit status is already collected, or the child has already exited (poll
collects it), no signal is sent; otherwise SIGTERM is issued through the
handle. -/
def popen_terminate (p : Proc) (w : World) : Proc × World :=
  if p.reaped then (p, w)
  else if w.osProbeOk p.pid then
    (p, { w with log := w.log ++ [Event.sigtermHandle p.pid] })
  else ({ p with reaped := true }, w)

/-- Popen.wait with a bounded timeout: returns (collecting the exit
status) if the status is already collected, the child has exited, or the
child exits on the SIGTERM just sent; raises TimeoutExpired otherwise. -/
def popen_wait (p : Proc) (w : World) : Except PyErr Proc :=
  if p.reaped then .ok p
  else if !w.osProbeOk p.pid || w.diesOnTerm p.pid then
    .ok { p with reaped := true }
  else .error .timeoutExpired

/-- multiprocessing.Process terminate plus a bounded join (lines 55-57 of
stop): a signal is issued unless the child is gone, and join collects the
exit status when the child exits within the wait; join never raises on
timeout. The template never assigns `worker_process`, so this path is dead
code kept for fidelity. -/
def worker_terminate_join (p : Proc) (w : World) : Proc × World :=
  let (p1, w1) := popen_terminate p w
  if p1.reaped || !w1.osProbeOk p1.pid || w1.diesOnTerm p1.pid then
    ({ p1 with reaped := true }, w1)
  else (p1, w1)

/-- MCPProcessManager.stop (lines 48-63): set the stop event, join the
monitor thread with a bounded wait (no state effect modelled), terminate
and join `worker_process` if set, terminate and wait on `process` if set
(a TimeoutExpired from `wait` propagates, skipping cleanup), and finally
call `_cleanup_files`. The handles are never reset to `None`. -/
def stop (m : Manager) (w : World) : Res Unit :=
  let m1 := { m with stop_event := true }
  let step :=
    match m1.worker_process with
    | none => (m1, w)
    | some p =>
      let (p1, w1) := worker_terminate_join p w
      ({ m1 with worker_process := some p1 }, w1)
  let m2 := step.1
  let wa := step.2
  match m2.process with
  | none => .ok () m2 (_cleanup_files wa)
  | some p =>
    let (p1, w1) := popen_terminate p wa
    match popen_wait p1 w1 with
    | .error e => .exn e { m2 with process := some p1 } w1
    | .ok p2 => .ok () { m2 with process := some p2 } (_cleanup_files w1)

/-- Duration for which the monitor thread is suspended between ticks
(process_manager.py line 108): `time.sleep(self.check_interval)`.
`time.sleep` cannot be woken by `threading.Event.set`, so the moment at
which `stop()` sets the stop event during the sleep (`none` when no stop
request arrives) cannot shorten the suspension. -/
def monitorSleepDuration (check_interval : Int) (_stopRequestAt : Option Int) : Int :=
  check_interval

/-- Modelled from the spec: the sleep between ticks the specification
describes — a wait on the cancellation signal with a timeout — which ends
early when a stop request arrives during the wait. -/
def interruptibleSleepDuration (check_interval : Int) (stopRequestAt : Option Int) : Int :=
  match stopRequestAt with
  | none => check_interval
  | some t => min check_interval (max t 0)

/-- A fault-free world: no durable files, clock at 100 seconds, a process
table in which exactly pid 1234 exists, every process exits on SIGTERM,
and 4321 is the pid the next spawn would receive. -/
def wBase : World :=
  { pidFile := none
    lastActiveFile := none
    now := 100
    osProbeOk := fun p => p == 1234
    diesOnTerm := fun _ => true
    freshPid := 4321
    spawnFails := false
    readPidFails := false
    readLastFails := false
    writePidFails := false
    writeLastFails := false
    unlinkPidFails := false
    unlinkLastFails := false
    log := [] }

/-- An enabled manager with the default one hour timeout and one minute
check interval, holding no handles, before start. -/
def mBase : Manager :=
  { enabled := true
    timeout := 3600
    check_interval := 60
    process := none
    worker_process := none
    stop_event := false
    monitor_started := false }

/-- Helper: when both unlink outcomes succeed, cleanup removes both
durable files and changes nothing else. -/
theorem cleanup_files_clears (w : World) (hu1 : w.unlinkPidFails = false)
    (hu2 : w.unlinkLastFails = false) :
    _cleanup_files w = { w with pidFile := none, lastActiveFile := none } := by
  obtain ⟨pf, laf, now, pr, dt, fp, sf, r1, r2, wp, wl, u1, u2, lg⟩ := w
  simp only at hu1 hu2
  subst hu1 hu2
  rcases pf with _ | c <;> rcases laf with _ | d <;> simp [_cleanup_files]


/-- C1: on a tick where the worker is alive and has been idle longer than
the timeout (clock 3602, last active 0, timeout 3600), the monitor sends
no signal and leaves both durable files in place — the idle branch raises
NameError at the unbound `sys` in the print call and the bare except
swallows it before `_terminate_process` is reached. This contradicts the
claim that such a tick sends SIGTERM and removes both files. -/
theorem C1_idle_tick_does_nothing :
    monitor_tick { mBase with process := some { pid := 1234, reaped := false } }
        { wBase with pidFile := some (Cell.num 1234),
                     lastActiveFile := some (Cell.num 0), now := 3602 } =
      Except.ok { wBase with pidFile := some (Cell.num 1234),
                             lastActiveFile := some (Cell.num 0), now := 3602 } := by
  rfl

/-- C2: get_process returns None when disabled, and on a live worker it
performs zero spawns (log unchanged), refreshes only the last-active file
and returns the existing handle; but on the spawn path it raises NameError
(unbound `sys` at line 179) after spawning and writing both durable files,
so it never returns the fresh handle — contradicting the claim. -/
theorem C2_get_process_behavior :
    get_process { mBase with enabled := false } wBase
        = Res.ok none { mBase with enabled := false } wBase
  ∧ get_process { mBase with process := some { pid := 1234, reaped := false } }
        { wBase with pidFile := some (Cell.num 1234) }
      = Res.ok (some { pid := 1234, reaped := false })
          { mBase with process := some { pid := 1234, reaped := false } }
          { wBase with pidFile := some (Cell.num 1234),
                       lastActiveFile := some (Cell.num 100) }
  ∧ get_process mBase wBase
      = Res.exn PyErr.nameError
          { mBase with process := some { pid := 4321, reaped := false } }
          { wBase with pidFile := some (Cell.num 4321),
                       lastActiveFile := some (Cell.num 100),
                       log := [Event.spawn 4321] } :=
  ⟨rfl, rfl, rfl⟩

/-- C3: with enabled = false, start, get_process and update_heartbeat all
return normally without touching the manager or the world, so no durable
file is ever created and no process is spawned. -/
theorem C3_disabled_noops (m : Manager) (w : World) (h : m.enabled = false) :
    start m w = Res.ok () m w
  ∧ get_process m w = Res.ok none m w
  ∧ update_heartbeat m w = Except.ok w := by
  refine ⟨?_, ?_, ?_⟩ <;> simp [start, get_process, update_heartbeat, h]

theorem C3_disabled_noops_witness :
    ({ mBase with enabled := false } : Manager).enabled = false
  ∧ start { mBase with enabled := false } wBase
      = Res.ok () { mBase with enabled := false } wBase :=
  ⟨rfl, (C3_disabled_noops { mBase with enabled := false } wBase rfl).1⟩

/-- C4: a monitor tick that finds the worker not alive reconciles by
removing both durable files and changing nothing else — in particular the
event log is unchanged, so no signal is sent to any process. -/
theorem C4_dead_tick_reconciles (m : Manager) (w : World)
    (hdead : is_process_alive w = false)
    (hu1 : w.unlinkPidFails = false) (hu2 : w.unlinkLastFails = false) :
    monitor_tick m w
      = Except.ok { w with pidFile := none, lastActiveFile := none } := by
  unfold monitor_tick
  rw [hdead, cleanup_files_clears w hu1 hu2]
  simp

theorem C4_dead_tick_reconciles_witness :
    is_process_alive { wBase with pidFile := some (Cell.num 9999),
                                  lastActiveFile := some (Cell.num 0) } = false
  ∧ monitor_tick mBase { wBase with pidFile := some (Cell.num 9999),
                                    lastActiveFile := some (Cell.num 0) }
      = Except.ok { { wBase with pidFile := some (Cell.num 9999),
                                 lastActiveFile := some (Cell.num 0) } with
                    pidFile := none, lastActiveFile := none } :=
  ⟨rfl, C4_dead_tick_reconciles mBase
    { wBase with pidFile := some (Cell.num 9999),
                 lastActiveFile := some (Cell.num 0) } rfl rfl rfl⟩

/-- C5 counterexample: with a 60 second check interval and a stop request
arriving 1 second into the sleep, the monitor still sleeps the full 60
seconds — it does not wake early — whereas the interruptible wait the
specification describes would end after 1 second. -/
theorem C5_stop_does_not_preempt_sleep :
    ¬ monitorSleepDuration 60 (some 1) < 60
  ∧ interruptibleSleepDuration 60 (some 1) = 1 := by
  constructor
  · simp [monitorSleepDuration]
  · simp [interruptibleSleepDuration]

/-- C5 amended: the sleep between monitor ticks is a plain
time.sleep(check_interval); it always lasts the full check interval, no
matter when (or whether) stop() sets the cancellation flag during it, so
the flag is observed only at the top of the next tick and shutdown can be
delayed by up to the full check interval. -/
theorem C5_sleep_lasts_full_interval (check_interval : Int)
    (stopRequestAt : Option Int) :
    monitorSleepDuration check_interval stopRequestAt = check_interval := rfl

/-- C6: is_process_alive returns true exactly when the pid file is
present, its content parses as an integer, reading it raised nothing and
the os.kill(pid, 0) probe succeeds; in every other case — absent file,
unreadable file, unparsable content, failed probe — it returns false. It
is a total Bool-valued function for every oracle outcome, the bare except
of line 89 being part of its definition, so it never raises. -/
theorem C6_is_process_alive_characterization (w : World) :
    is_process_alive w = true ↔
      ∃ pid, w.pidFile = some (Cell.num pid) ∧ w.readPidFails = false ∧
        w.osProbeOk pid = true := by
  unfold is_process_alive is_process_alive_body
  rcases hp : w.pidFile with _ | c
  · simp [hp]
  · rcases hr : w.readPidFails with _ | _ <;> cases c <;> simp [hp, hr]

/-- A manager holding a live worker handle for pid 1234. -/
def mLive : Manager := { mBase with process := some { pid := 1234, reaped := false } }

/-- A world in which the worker 1234 is recorded in both durable files and
exists in the process table. -/
def wLive : World :=
  { wBase with pidFile := some (Cell.num 1234), lastActiveFile := some (Cell.num 100) }

/-- Helper: when both files are already absent, cleanup changes nothing. -/
theorem cleanup_files_noop (w : World) (h1 : w.pidFile = none)
    (h2 : w.lastActiveFile = none) : _cleanup_files w = w := by
  simp [_cleanup_files, h1, h2]

/-- C7 counterexample: stopping a supervisor that holds a live worker
clears both durable files yet leaves the in-memory handle set (it is never
reset to None) — the durable identity record is cleared without the
in-memory handle, contradicting "never one without the other". -/
theorem C7_stop_clears_record_not_handle :
    (stop mLive wLive).world.pidFile = none
  ∧ (stop mLive wLive).world.lastActiveFile = none
  ∧ (stop mLive wLive).mgr.process = some { pid := 1234, reaped := true } :=
  ⟨rfl, rfl, rfl⟩

/-- C7 amended: whenever the supervisor stops a worker it holds, both
durable files are removed, but the in-memory handle survives: self.process
still carries the terminated worker (now with its exit status collected)
and is never reset to None; it is only overwritten by a later spawn. -/
theorem C7_stop_retains_handle (m : Manager) (w : World) (p : Proc)
    (hwp : m.worker_process = none) (hp : m.process = some p)
    (hdies : w.diesOnTerm p.pid = true)
    (hu1 : w.unlinkPidFails = false) (hu2 : w.unlinkLastFails = false) :
    (stop m w).err = none
  ∧ (stop m w).world.pidFile = none
  ∧ (stop m w).world.lastActiveFile = none
  ∧ (stop m w).mgr.process = some { pid := p.pid, reaped := true } := by
  obtain ⟨pid, rp⟩ := p
  simp only at hdies
  cases rp <;> rcases hpr : w.osProbeOk pid <;>
    simp [stop, hwp, hp, popen_terminate, popen_wait, hdies, hpr,
      Res.err, Res.world, Res.mgr, cleanup_files_clears, hu1, hu2]

theorem C7_stop_retains_handle_witness :
    mLive.worker_process = none ∧ mLive.process = some { pid := 1234, reaped := false }
  ∧ ((stop mLive wLive).err = none
      ∧ (stop mLive wLive).world.pidFile = none
      ∧ (stop mLive wLive).world.lastActiveFile = none
      ∧ (stop mLive wLive).mgr.process = some { pid := 1234, reaped := true }) :=
  ⟨rfl, rfl, C7_stop_retains_handle mLive wLive { pid := 1234, reaped := false }
    rfl rfl rfl rfl rfl⟩

/-- C8: stop is idempotent. A first stop (on a supervisor whose worker, if
any, exits on SIGTERM within the bounded wait, with working unlinks)
returns normally with both durable files absent, and running stop again on
the resulting state returns normally with the manager and the world
completely unchanged — the same end state as stopping once. -/
theorem C8_stop_idempotent (m : Manager) (w : World)
    (hwp : m.worker_process = none)
    (hdies : ∀ p, m.process = some p → w.diesOnTerm p.pid = true)
    (hu1 : w.unlinkPidFails = false) (hu2 : w.unlinkLastFails = false) :
    (stop m w).err = none
  ∧ (stop m w).world.pidFile = none
  ∧ (stop m w).world.lastActiveFile = none
  ∧ stop (stop m w).mgr (stop m w).world
      = Res.ok () (stop m w).mgr (stop m w).world := by
  rcases hp : m.process with _ | ⟨pid, rp⟩
  · simp [stop, hwp, hp, Res.err, Res.world, Res.mgr,
      cleanup_files_clears, cleanup_files_noop, hu1, hu2]
  · have hd := hdies { pid := pid, reaped := rp } hp
    simp only at hd
    cases rp <;> rcases hpr : w.osProbeOk pid <;>
      simp [stop, hwp, hp, popen_terminate, popen_wait, hd, hpr,
        Res.err, Res.world, Res.mgr, cleanup_files_clears, cleanup_files_noop,
        hu1, hu2]

theorem C8_stop_idempotent_witness :
    mLive.worker_process = none
  ∧ ((stop mLive wLive).err = none
      ∧ (stop mLive wLive).world.pidFile = none
      ∧ (stop mLive wLive).world.lastActiveFile = none
      ∧ stop (stop mLive wLive).mgr (stop mLive wLive).world
          = Res.ok () (stop mLive wLive).mgr (stop mLive wLive).world) :=
  ⟨rfl, C8_stop_idempotent mLive wLive rfl
    (fun p hp => by cases hp; rfl) rfl rfl⟩

/-- Helper: a monitor tick always returns normally — every raise inside it
is behind a bare except in the source, for all injected I/O outcomes. -/
theorem monitor_tick_never_errors (m : Manager) (w : World) :
    ∃ w1, monitor_tick m w = Except.ok w1 := by
  unfold monitor_tick
  cases h : is_process_alive w
  · exact ⟨_cleanup_files w, by simp⟩
  · unfold _check_timeout
    cases hn : w.lastActiveFile.isNone
    · cases hb : _check_timeout_body m w with
      | ok w1 => exact ⟨w1, by simp [hn, hb]⟩
      | error e => exact ⟨w, by simp [hn, hb]⟩
    · exact ⟨w, by simp [hn]⟩

/-- C9: for every manager state and every world — any combination of
missing files, malformed contents and injected read, write, unlink or
signal failures — a monitor tick returns normally (no exception escapes:
each raise point sits behind a bare except), and the running loop
therefore proceeds to the next tick instead of dying. -/
theorem C9_tick_never_throws (n : Nat) (m : Manager) (w : World)
    (hrun : m.stop_event = false) :
    ∃ w1, monitor_tick m w = Except.ok w1
      ∧ _monitor_loop (n + 1) m w
          = _monitor_loop n m { w1 with now := w1.now + m.check_interval } := by
  obtain ⟨w1, h1⟩ := monitor_tick_never_errors m w
  exact ⟨w1, h1, by simp [_monitor_loop, hrun, h1]⟩

theorem C9_tick_never_throws_witness :
    mBase.stop_event = false
  ∧ ∃ w1, monitor_tick mBase wBase = Except.ok w1
      ∧ _monitor_loop 1 mBase wBase
          = _monitor_loop 0 mBase { w1 with now := w1.now + mBase.check_interval } :=
  ⟨rfl, C9_tick_never_throws 0 mBase wBase rfl⟩

/-- C10: on an enabled supervisor with a working write, update_heartbeat
writes the current time to the last-active file and changes nothing else —
it never consults the pid file or the handle, so the last-active file can
exist while the identity file is absent and no worker was ever spawned. -/
theorem C10_heartbeat_unconditional (m : Manager) (w : World)
    (hen : m.enabled = true) (hwf : w.writeLastFails = false) :
    update_heartbeat m w
      = Except.ok { w with lastActiveFile := some (Cell.num w.now) } := by
  simp [update_heartbeat, hen, hwf]

theorem C10_heartbeat_unconditional_witness :
    mBase.enabled = true ∧ wBase.pidFile = none
  ∧ update_heartbeat mBase wBase
      = Except.ok { wBase with lastActiveFile := some (Cell.num 100) }
  ∧ ({ wBase with lastActiveFile := some (Cell.num 100) } : World).pidFile = none :=
  ⟨rfl, rfl, C10_heartbeat_unconditional mBase wBase rfl rfl, rfl⟩
